import Mathlib

/-!
Verification of the CTA station event-production core
(src/producers/models/station.py) against its specification.

The Python source under src/ contains the Station class and the
StationArrivalDto dataclass.  The collaborating classes Producer,
Turnstile and TimestampKeyDto are not part of src/; where a claim
depends on their behaviour they are modelled from the spec and marked
as such in their doc comments.  Mutable object state is embedded as
explicit state passing; the broker client is embedded as an abstract
produce function supplied as a parameter; wall-clock time
(Producer.time_millis) is an explicit parameter.
-/

/- ## Channel-name normalization (station.py lines 33-39) -/

/-- Python str.replace for a single-character pattern: every occurrence
of the character pat in the list is replaced by the list rep (for a
one-character pattern the leftmost-non-overlapping rule of str.replace
degenerates to an independent per-character substitution). -/
def pyReplaceChar (pat : Char) (rep : List Char) (s : List Char) : List Char :=
  s.flatMap (fun c => if c = pat then rep else [c])

/-- The normalized channel-name component computed in Station.__init__
(station.py lines 33-39): lowercase (Python str.lower, embedded as the
ASCII Char.toLower), then replace / by _and_, space by _, - by _, and
delete apostrophes, in that order. -/
def normalizeStationName (name : String) : String :=
  String.mk (pyReplaceChar '\'' []
    (pyReplaceChar '-' ['_']
      (pyReplaceChar ' ' ['_']
        (pyReplaceChar '/' "_and_".toList
          ((name.toList).map Char.toLower)))))

/-- True when the character is none of the four characters the
normalization is required to eliminate. -/
def allowedChannelChar (c : Char) : Bool :=
  !(c == '/') && !(c == ' ') && !(c == '-') && !(c == '\'')

/- ## Data model (station.py lines 15-23 and 31-56) -/

/-- An enum member as the source uses it: the code only ever reads
.name from the color (line) and train-status enum values. -/
structure Line where
  name : String
  deriving DecidableEq, Repr

/-- Train-status enum member; Station.run reads train.status.name. -/
structure TrainStatus where
  name : String
  deriving DecidableEq, Repr

/-- The part of a Train that Station reads: train_id and status. -/
structure Train where
  train_id : String
  status : TrainStatus
  deriving DecidableEq, Repr

/-- Modelled from the spec: TimestampKeyDto (models/timestamp_key_dto.py
is not under src/) wraps a millisecond timestamp used as message key. -/
structure TimestampKeyDto where
  timestamp : Int
  deriving DecidableEq, Repr

/-- StationArrivalDto (station.py lines 15-23): the arrival-event value
payload. -/
structure StationArrivalDto where
  station_id : Int
  train_id : String
  direction : String
  line : String
  train_status : String
  prev_station_id : Int
  prev_direction : String
  deriving DecidableEq, Repr

/-- The Station state (station.py lines 31-56).  topic_name,
num_partitions and num_replicas are the fields the Producer base class
(not under src/) stores from the super().__init__ call, modelled from
the spec ChannelDescriptor; the remaining fields are assigned directly
in Station.__init__. -/
structure Station where
  name : String
  topic_name : String
  num_partitions : Nat
  num_replicas : Nat
  station_id : Int
  color : Line
  dir_a : Option Line
  dir_b : Option Line
  a_train : Option Train
  b_train : Option Train
  deriving DecidableEq, Repr

/-- A station_id argument as the Python constructor may receive it:
already an int, or a string to be converted by int(...). -/
inductive PyIntLike where
  | int (i : Int)
  | str (s : String)
  deriving DecidableEq, Repr

/-- Decimal digit parser: some value when the list is nonempty and all
digits, none otherwise. -/
def parseDecimalDigits (cs : List Char) : Option Nat :=
  if cs.isEmpty then none
  else
    cs.foldl
      (fun acc c =>
        match acc with
        | none => none
        | some n => if c.isDigit then some (n * 10 + (c.toNat - 48)) else none)
      (some 0)

/-- The Python builtin int(...) as Station.__init__ line 50 applies it,
on ints (identity) and signed decimal strings (none models the
ValueError raised on a non-numeric string; whitespace and underscore
digit-grouping forms are not modelled). -/
def pyInt : PyIntLike → Option Int
  | .int i => some i
  | .str s =>
    match s.toList with
    | '-' :: rest => (parseDecimalDigits rest).map (fun n => -(n : Int))
    | '+' :: rest => (parseDecimalDigits rest).map (fun n => (n : Int))
    | cs => (parseDecimalDigits cs).map (fun n => (n : Int))

/-- Station.__init__ (station.py lines 31-56): normalizes the name,
builds the topic name, binds the producer to it with one partition and
one replica, converts station_id with int(...), and initializes both
occupancy slots to None.  Returns none when int(...) raises. -/
def mkStation (station_id : PyIntLike) (name : String) (color : Line)
    (direction_a : Option Line) (direction_b : Option Line) : Option Station :=
  match pyInt station_id with
  | none => none
  | some sid =>
    some
      { name := name
        topic_name := "org.chicago.cta.station." ++ normalizeStationName name ++ ".arrival.v1"
        num_partitions := 1
        num_replicas := 1
        station_id := sid
        color := color
        dir_a := direction_a
        dir_b := direction_b
        a_train := none
        b_train := none }

/- ## Arrival operations (station.py lines 58-101) -/

/-- Failures a publish call can surface synchronously (spec section 7). -/
inductive PublishErr where
  | SchemaValidationError
  deriving DecidableEq, Repr

/-- One call to self.producer.produce (station.py lines 72-78): the
topic, the key dict and the value dict handed to the broker client. -/
structure ProduceCall where
  topic : String
  key : TimestampKeyDto
  value : StationArrivalDto
  deriving DecidableEq, Repr

/-- Station.run (station.py lines 58-78): builds the value DTO from the
station state and the train, a fresh timestamp key (now stands for
self.time_millis()), and hands exactly the produce calls in the
returned list to the broker client (produce stands for the
confluent-kafka produce path, which may raise).  Station.run mutates no
station field. -/
def Station.run (produce : ProduceCall → Option PublishErr) (s : Station)
    (train : Train) (direction : String) (prev_station_id : Int)
    (prev_direction : String) (now : Int) : List ProduceCall × Option PublishErr :=
  let valueDto : StationArrivalDto :=
    { station_id := s.station_id
      train_id := train.train_id
      direction := direction
      line := s.color.name
      train_status := train.status.name
      prev_station_id := prev_station_id
      prev_direction := prev_direction }
  let keyDto : TimestampKeyDto := { timestamp := now }
  let call : ProduceCall := { topic := s.topic_name, key := keyDto, value := valueDto }
  ([call], produce call)

/-- Station.arrive_a (station.py lines 93-96): first sets a_train to
the arriving train, then calls run with direction "a".  A failure
raised inside run propagates but the assignment to a_train is not
rolled back, which the state-first pairing captures. -/
def Station.arrive_a (produce : ProduceCall → Option PublishErr) (s : Station)
    (train : Train) (prev_station_id : Int) (prev_direction : String)
    (now : Int) : Station × List ProduceCall × Option PublishErr :=
  let s1 := { s with a_train := some train }
  (s1, Station.run produce s1 train "a" prev_station_id prev_direction now)

/-- Station.arrive_b (station.py lines 98-101): symmetric to arrive_a
with b_train and direction "b". -/
def Station.arrive_b (produce : ProduceCall → Option PublishErr) (s : Station)
    (train : Train) (prev_station_id : Int) (prev_direction : String)
    (now : Int) : Station × List ProduceCall × Option PublishErr :=
  let s1 := { s with b_train := some train }
  (s1, Station.run produce s1 train "b" prev_station_id prev_direction now)

/- ## Rendering (station.py lines 80-91) -/

/-- Python format spec {:^w}: center in width w, extra fill on the
right. -/
def pyCenter (w : Nat) (s : String) : String :=
  let pad := w - s.length
  let left := pad / 2
  String.mk (List.replicate left ' ') ++ s ++ String.mk (List.replicate (pad - left) ' ')

/-- Python format spec {:<w}: left-justify in width w. -/
def pyLJust (w : Nat) (s : String) : String :=
  s ++ String.mk (List.replicate (w - s.length) ' ')

/-- Station.__str__ (station.py lines 80-88): renders id, name and the
per-direction occupancy, the sentinel "---" standing for an empty slot
or absent destination. -/
def Station.toStr (s : Station) : String :=
  "Station | " ++ pyCenter 5 (toString s.station_id) ++ " | " ++ pyLJust 30 s.name
    ++ " | Direction A: | "
    ++ pyCenter 5 (match s.a_train with | some t => t.train_id | none => "---")
    ++ " | departing to "
    ++ pyLJust 30 (match s.dir_a with | some d => d.name | none => "---")
    ++ " | Direction B: | "
    ++ pyCenter 5 (match s.b_train with | some t => t.train_id | none => "---")
    ++ " | departing to "
    ++ pyLJust 30 (match s.dir_b with | some d => d.name | none => "---")
    ++ " | "

/- ## Shutdown (station.py lines 103-106) -/

/-- Errors raised while releasing resources (spec section 7 CloseError). -/
inductive CloseErr where
  | turnstileErr
  | producerErr
  deriving DecidableEq, Repr

/-- Observable shutdown state shared by the turnstile and the producer
base class: whether each is closed, how many broker-level teardowns
occurred, and how many times the producer close step was attempted. -/
structure CloseState where
  turnstileClosed : Bool
  producerClosed : Bool
  brokerTeardowns : Nat
  producerCloseAttempts : Nat
  deriving DecidableEq, Repr

/-- A close step: transforms the shutdown state and optionally raises.
A raised error leaves the state as mutated so far (Python exceptions do
not roll state back). -/
def CloseStep : Type := CloseState → CloseState × Option CloseErr

/-- Station.close (station.py lines 103-106): runs
self.turnstile.close() and then super(Station, self).close(), with
Python statement-sequencing semantics; an exception raised by the
turnstile close propagates immediately and the producer close statement
is not executed.  The two steps are parameters because the Turnstile
and Producer classes are not under src/. -/
def Station.close (turnstileClose producerClose : CloseStep)
    (s : CloseState) : CloseState × Option CloseErr :=
  match turnstileClose s with
  | (s1, none) => producerClose s1
  | (s1, some e) => (s1, some e)

/-- Modelled from the spec: Turnstile.close (Turnstile is not under
src/) must tolerate being already closed, so it is idempotent and
does not fail on a repeated call. -/
def turnstileCloseSpec : CloseStep :=
  fun s => ({ s with turnstileClosed := true }, none)

/-- Modelled from the spec: Producer.close (the producer base class is
not under src/) releases the broker client resource; close operations
are idempotent, so a second call performs no further broker-level
teardown. -/
def producerCloseSpec : CloseStep :=
  fun s =>
    if s.producerClosed then
      ({ s with producerCloseAttempts := s.producerCloseAttempts + 1 }, none)
    else
      ({ s with
          producerClosed := true
          brokerTeardowns := s.brokerTeardowns + 1
          producerCloseAttempts := s.producerCloseAttempts + 1 }, none)

/-- A turnstile close step that raises, to probe Station.close's
sequencing; it mutates nothing before raising. -/
def failingTurnstileClose : CloseStep :=
  fun s => (s, some CloseErr.turnstileErr)

/-- The shutdown state before any close call. -/
def initialCloseState : CloseState :=
  { turnstileClosed := false
    producerClosed := false
    brokerTeardowns := 0
    producerCloseAttempts := 0 }

/- ## ChannelProducer.publish (modelled from the spec) -/

/-- Modelled from the spec: an Avro schema, abstracted to the part the
validation contract mentions, its set of required field names. -/
structure AvroSchema where
  required : List String
  deriving DecidableEq, Repr

/-- A key or value handed to publish: a flat record of named fields. -/
abbrev AvroRecord : Type := List (String × String)

/-- A record conforms to a schema when every required field is present. -/
def conformsTo (sch : AvroSchema) (r : AvroRecord) : Bool :=
  sch.required.all (fun f => r.any (fun p => p.1 = f))

/-- The broker send path, observed as the list of messages handed to it. -/
structure BrokerLog where
  sent : List (String × AvroRecord × AvroRecord)
  deriving DecidableEq, Repr

/-- Modelled from the spec: ChannelProducer.publish (the producer class
is not under src/) validates the key against the key schema and the
value against the value schema; on a non-conforming key or value it
raises SchemaValidationError without invoking the broker send path,
otherwise it hands the message to the send path for this channel's
name. -/
def ChannelProducer.publish (topic : String) (keySchema valueSchema : AvroSchema)
    (key value : AvroRecord) (br : BrokerLog) : BrokerLog × Option PublishErr :=
  if conformsTo keySchema key && conformsTo valueSchema value then
    ({ sent := br.sent ++ [(topic, key, value)] }, none)
  else
    (br, some PublishErr.SchemaValidationError)

/- ## ensure_channel_exists (modelled from the spec) -/

/-- Modelled from the spec: ensure_channel_exists on the process-wide
registry of known-created channel names (the producer class is not
under src/).  The registry is checked and then inserted before any
network call; the returned flag records whether a creation request was
sent to the broker.  The spec's atomic check-and-insert means
concurrent calls serialize, so a sequence of calls on the shared
registry is the faithful embedding. -/
def ensureChannelExists (reg : List String) (name : String) : List String × Bool :=
  if name ∈ reg then (reg, false) else (name :: reg, true)

/-- N successive ensure_channel_exists calls for the same name against
the shared registry (across any producer instances), counting the
creation requests that reach the broker. -/
def ensureNTimes (reg : List String) (name : String) : Nat → List String × Nat
  | 0 => (reg, 0)
  | n + 1 =>
    let r1 := ensureChannelExists reg name
    let r2 := ensureNTimes r1.1 name n
    (r2.1, (if r1.2 then 1 else 0) + r2.2)

/- ## Sequences of arrival calls -/

/-- One directional arrival call with its arguments and the call-time
timestamp. -/
inductive ArrivalCall where
  | a (t : Train) (prev_station_id : Int) (prev_direction : String) (now : Int)
  | b (t : Train) (prev_station_id : Int) (prev_direction : String) (now : Int)
  deriving Repr

/-- Replays a sequence of arrive_a/arrive_b calls on a station,
keeping the station state. -/
def applyCalls (produce : ProduceCall → Option PublishErr) (s : Station) :
    List ArrivalCall → Station
  | [] => s
  | ArrivalCall.a t psi pd now :: rest =>
    applyCalls produce (Station.arrive_a produce s t psi pd now).1 rest
  | ArrivalCall.b t psi pd now :: rest =>
    applyCalls produce (Station.arrive_b produce s t psi pd now).1 rest

/-- The train of the most recent direction-a call, starting from a
given prior occupancy. -/
def lastATrainFrom (init : Option Train) (cs : List ArrivalCall) : Option Train :=
  cs.foldl
    (fun acc c => match c with | ArrivalCall.a t _ _ _ => some t | ArrivalCall.b _ _ _ _ => acc)
    init

/-- The train of the most recent direction-b call, starting from a
given prior occupancy. -/
def lastBTrainFrom (init : Option Train) (cs : List ArrivalCall) : Option Train :=
  cs.foldl
    (fun acc c => match c with | ArrivalCall.a _ _ _ _ => acc | ArrivalCall.b t _ _ _ => some t)
    init

/- ## Helper lemmas -/

lemma pyReplaceChar_mem {c pat : Char} {rep s : List Char}
    (h : c ∈ pyReplaceChar pat rep s) : c ∈ rep ∨ (c ∈ s ∧ c ≠ pat) := by
  rcases List.mem_flatMap.mp h with ⟨a, ha, hc⟩
  by_cases hap : a = pat
  · subst hap
    simp at hc
    exact Or.inl hc
  · simp [hap] at hc
    subst hc
    exact Or.inr ⟨ha, hap⟩

lemma allowedChannelChar_of_ne {c : Char} (h1 : c ≠ '/') (h2 : c ≠ ' ')
    (h3 : c ≠ '-') (h4 : c ≠ '\'') : allowedChannelChar c = true := by
  simp [allowedChannelChar, h1, h2, h3, h4]

/- ## Claims -/

/-- C1: normalizeStationName is a function of the name alone (purity is
definitional in the embedding), every character of its output differs
from '/', ' ', '-' and the apostrophe, and the name Belmont-Wilson's/North
normalizes to belmont_wilsons_and_north. -/
theorem normalize_no_forbidden_chars (name : String) :
    (normalizeStationName name).toList.all allowedChannelChar = true
    ∧ normalizeStationName "Belmont-Wilson's/North" = "belmont_wilsons_and_north" := by
  refine ⟨?_, rfl⟩
  rw [List.all_eq_true]
  intro c hc
  have h4 : c ∈ pyReplaceChar '\'' []
      (pyReplaceChar '-' ['_']
        (pyReplaceChar ' ' ['_']
          (pyReplaceChar '/' "_and_".toList
            ((name.toList).map Char.toLower)))) := hc
  rcases pyReplaceChar_mem h4 with h | ⟨h3, hne4⟩
  · simp at h
  rcases pyReplaceChar_mem h3 with h | ⟨h2, hne3⟩
  · simp at h
    subst h
    decide
  rcases pyReplaceChar_mem h2 with h | ⟨h1, hne2⟩
  · simp at h
    subst h
    decide
  rcases pyReplaceChar_mem h1 with h | ⟨h0, hne1⟩
  · have hcase : c = '_' ∨ c = 'a' ∨ c = 'n' ∨ c = 'd' ∨ c = '_' := by
      simpa using h
    rcases hcase with h | h | h | h | h <;> (subst h; decide)
  · exact allowedChannelChar_of_ne hne1 hne2 hne3 hne4

/-- C2: every successfully constructed Station binds its producer to the
channel named org.chicago.cta.station.NORMALIZEDNAME.arrival.v1 and
declares it with at least one partition and at least one replica. -/
theorem station_channel_binding (station_id : PyIntLike) (name : String)
    (color : Line) (da db : Option Line) (st : Station)
    (h : mkStation station_id name color da db = some st) :
    st.topic_name = "org.chicago.cta.station." ++ normalizeStationName name ++ ".arrival.v1"
    ∧ 1 ≤ st.num_partitions ∧ 1 ≤ st.num_replicas := by
  unfold mkStation at h
  cases hp : pyInt station_id with
  | none => rw [hp] at h; cases h
  | some sid =>
    rw [hp] at h
    injection h with h'
    subst h'
    exact ⟨rfl, le_refl 1, le_refl 1⟩

/-- Witness for C2 at the concrete constructor call
mkStation 7 "a" RED none none. -/
theorem station_channel_binding_w :
    (Station.mk "a" ("org.chicago.cta.station." ++ normalizeStationName "a" ++ ".arrival.v1")
        1 1 7 ⟨"RED"⟩ none none none none).topic_name
      = "org.chicago.cta.station." ++ normalizeStationName "a" ++ ".arrival.v1"
    ∧ 1 ≤ (Station.mk "a" ("org.chicago.cta.station." ++ normalizeStationName "a" ++ ".arrival.v1")
        1 1 7 ⟨"RED"⟩ none none none none).num_partitions
    ∧ 1 ≤ (Station.mk "a" ("org.chicago.cta.station." ++ normalizeStationName "a" ++ ".arrival.v1")
        1 1 7 ⟨"RED"⟩ none none none none).num_replicas :=
  station_channel_binding (PyIntLike.int 7) "a" ⟨"RED"⟩ none none _ rfl

/-- C3: on a station with station_id 41380 and line RED, arrive_a for a
train with id T1 and previous station 40380, previous direction b,
hands exactly one produce call to the broker, whose value is the
arrival event with direction a, line RED, the train's current status,
and the given previous-station fields, keyed by the fresh call-time
timestamp. -/
theorem arrive_a_event_example (produce : ProduceCall → Option PublishErr)
    (s : Station) (t : Train) (now : Int)
    (hsid : s.station_id = 41380) (hline : s.color.name = "RED")
    (htid : t.train_id = "T1") :
    (Station.arrive_a produce s t 40380 "b" now).2.1 =
      [{ topic := s.topic_name
         key := { timestamp := now }
         value :=
           { station_id := 41380
             train_id := "T1"
             direction := "a"
             line := "RED"
             train_status := t.status.name
             prev_station_id := 40380
             prev_direction := "b" } }] := by
  simp [Station.arrive_a, Station.run, hsid, hline, htid]

/-- Witness for C3 at a fully concrete station, train and time. -/
theorem arrive_a_event_example_w :
    (Station.arrive_a (fun _ => none)
        (Station.mk "x" "topic" 1 1 41380 ⟨"RED"⟩ none none none none)
        (Train.mk "T1" ⟨"IN_SERVICE"⟩) 40380 "b" 5).2.1 =
      [{ topic := "topic"
         key := { timestamp := 5 }
         value :=
           { station_id := 41380
             train_id := "T1"
             direction := "a"
             line := "RED"
             train_status := (Train.mk "T1" ⟨"IN_SERVICE"⟩).status.name
             prev_station_id := 40380
             prev_direction := "b" } }] :=
  arrive_a_event_example (fun _ => none)
    (Station.mk "x" "topic" 1 1 41380 ⟨"RED"⟩ none none none none)
    (Train.mk "T1" ⟨"IN_SERVICE"⟩) 5 rfl rfl rfl

/-- C4: arrive_a leaves every station field except a_train unchanged,
stores the arriving train in a_train before the produce call is made
(the publish step runs on the already-mutated state), and the rendered
string afterwards is exactly the rendering of the prior state with the
new train in direction A, so direction B renders as before. -/
theorem arrive_a_frame (produce : ProduceCall → Option PublishErr)
    (s : Station) (t : Train) (psi : Int) (pd : String) (now : Int) :
    (Station.arrive_a produce s t psi pd now).1.a_train = some t
    ∧ (Station.arrive_a produce s t psi pd now).1.b_train = s.b_train
    ∧ (Station.arrive_a produce s t psi pd now).1.dir_a = s.dir_a
    ∧ (Station.arrive_a produce s t psi pd now).1.dir_b = s.dir_b
    ∧ (Station.arrive_a produce s t psi pd now).1.station_id = s.station_id
    ∧ (Station.arrive_a produce s t psi pd now).1.name = s.name
    ∧ (Station.arrive_a produce s t psi pd now).1.color = s.color
    ∧ (Station.arrive_a produce s t psi pd now).2
        = Station.run produce { s with a_train := some t } t "a" psi pd now
    ∧ Station.toStr (Station.arrive_a produce s t psi pd now).1
        = Station.toStr { s with a_train := some t } :=
  ⟨rfl, rfl, rfl, rfl, rfl, rfl, rfl, rfl, rfl⟩

/-- C5 counterexample: when the turnstile close step raises,
Station.close propagates that failure immediately and never attempts
the producer close step, contradicting the claim that the remaining
close steps are still attempted before the first failure is re-raised. -/
theorem station_close_aborts_on_failure :
    (Station.close failingTurnstileClose producerCloseSpec initialCloseState).2
      = some CloseErr.turnstileErr
    ∧ (Station.close failingTurnstileClose producerCloseSpec
        initialCloseState).1.producerCloseAttempts = 0 := by
  decide

/-- C5 amended: Station.close closes the turnstile first and then the
producer (the producer step runs on the state the turnstile step
produced), and with the spec's idempotent collaborator closes a second
Station.close call neither fails nor performs a second broker-level
teardown; but a failure in the turnstile step propagates without the
producer step being attempted. -/
theorem station_close_order_and_idempotence :
    (∀ s : CloseState,
      Station.close turnstileCloseSpec producerCloseSpec s
        = producerCloseSpec (turnstileCloseSpec s).1)
    ∧ (Station.close turnstileCloseSpec producerCloseSpec initialCloseState).2 = none
    ∧ (Station.close turnstileCloseSpec producerCloseSpec
        (Station.close turnstileCloseSpec producerCloseSpec initialCloseState).1).2 = none
    ∧ (Station.close turnstileCloseSpec producerCloseSpec
        (Station.close turnstileCloseSpec producerCloseSpec
          initialCloseState).1).1.brokerTeardowns = 1 := by
  refine ⟨fun s => rfl, ?_, ?_, ?_⟩ <;> decide

lemma applyCalls_a_train (produce : ProduceCall → Option PublishErr)
    (cs : List ArrivalCall) :
    ∀ s : Station, (applyCalls produce s cs).a_train = lastATrainFrom s.a_train cs := by
  induction cs with
  | nil => intro s; rfl
  | cons c rest ih =>
    intro s
    cases c with
    | a t psi pd now =>
      have h := ih (Station.arrive_a produce s t psi pd now).1
      simpa [applyCalls, lastATrainFrom, Station.arrive_a] using h
    | b t psi pd now =>
      have h := ih (Station.arrive_b produce s t psi pd now).1
      simpa [applyCalls, lastATrainFrom, Station.arrive_b] using h

lemma applyCalls_b_train (produce : ProduceCall → Option PublishErr)
    (cs : List ArrivalCall) :
    ∀ s : Station, (applyCalls produce s cs).b_train = lastBTrainFrom s.b_train cs := by
  induction cs with
  | nil => intro s; rfl
  | cons c rest ih =>
    intro s
    cases c with
    | a t psi pd now =>
      have h := ih (Station.arrive_a produce s t psi pd now).1
      simpa [applyCalls, lastBTrainFrom, Station.arrive_a] using h
    | b t psi pd now =>
      have h := ih (Station.arrive_b produce s t psi pd now).1
      simpa [applyCalls, lastBTrainFrom, Station.arrive_b] using h

/-- C6: starting from a freshly constructed station (both occupancy
slots absent), after any sequence of arrive_a/arrive_b calls a_train
holds exactly the train of the most recent direction-a call (absent if
none occurred) and b_train the train of the most recent direction-b
call: each arrival simply overwrites the slot and no departure
transition exists. -/
theorem occupancy_tracks_last_arrival (produce : ProduceCall → Option PublishErr)
    (station_id : PyIntLike) (name : String) (color : Line)
    (da db : Option Line) (st : Station) (cs : List ArrivalCall)
    (h : mkStation station_id name color da db = some st) :
    (applyCalls produce st cs).a_train = lastATrainFrom none cs
    ∧ (applyCalls produce st cs).b_train = lastBTrainFrom none cs := by
  have ha : st.a_train = none := by
    unfold mkStation at h
    cases hp : pyInt station_id with
    | none => rw [hp] at h; cases h
    | some sid => rw [hp] at h; injection h with h'; subst h'; rfl
  have hb : st.b_train = none := by
    unfold mkStation at h
    cases hp : pyInt station_id with
    | none => rw [hp] at h; cases h
    | some sid => rw [hp] at h; injection h with h'; subst h'; rfl
  constructor
  · rw [applyCalls_a_train produce cs st, ha]
  · rw [applyCalls_b_train produce cs st, hb]

/-- Witness for C6 on a concrete station and a concrete four-call
sequence mixing both directions. -/
theorem occupancy_tracks_last_arrival_w :
    (applyCalls (fun _ => none)
        (Station.mk "a" ("org.chicago.cta.station." ++ normalizeStationName "a" ++ ".arrival.v1")
          1 1 7 ⟨"RED"⟩ none none none none)
        [ArrivalCall.a (Train.mk "T1" ⟨"IN_SERVICE"⟩) 1 "b" 0,
         ArrivalCall.b (Train.mk "T2" ⟨"IN_SERVICE"⟩) 2 "a" 1,
         ArrivalCall.a (Train.mk "T3" ⟨"IN_SERVICE"⟩) 3 "b" 2,
         ArrivalCall.b (Train.mk "T4" ⟨"IN_SERVICE"⟩) 4 "a" 3]).a_train
      = lastATrainFrom none
          [ArrivalCall.a (Train.mk "T1" ⟨"IN_SERVICE"⟩) 1 "b" 0,
           ArrivalCall.b (Train.mk "T2" ⟨"IN_SERVICE"⟩) 2 "a" 1,
           ArrivalCall.a (Train.mk "T3" ⟨"IN_SERVICE"⟩) 3 "b" 2,
           ArrivalCall.b (Train.mk "T4" ⟨"IN_SERVICE"⟩) 4 "a" 3]
    ∧ (applyCalls (fun _ => none)
        (Station.mk "a" ("org.chicago.cta.station." ++ normalizeStationName "a" ++ ".arrival.v1")
          1 1 7 ⟨"RED"⟩ none none none none)
        [ArrivalCall.a (Train.mk "T1" ⟨"IN_SERVICE"⟩) 1 "b" 0,
         ArrivalCall.b (Train.mk "T2" ⟨"IN_SERVICE"⟩) 2 "a" 1,
         ArrivalCall.a (Train.mk "T3" ⟨"IN_SERVICE"⟩) 3 "b" 2,
         ArrivalCall.b (Train.mk "T4" ⟨"IN_SERVICE"⟩) 4 "a" 3]).b_train
      = lastBTrainFrom none
          [ArrivalCall.a (Train.mk "T1" ⟨"IN_SERVICE"⟩) 1 "b" 0,
           ArrivalCall.b (Train.mk "T2" ⟨"IN_SERVICE"⟩) 2 "a" 1,
           ArrivalCall.a (Train.mk "T3" ⟨"IN_SERVICE"⟩) 3 "b" 2,
           ArrivalCall.b (Train.mk "T4" ⟨"IN_SERVICE"⟩) 4 "a" 3] :=
  occupancy_tracks_last_arrival (fun _ => none) (PyIntLike.int 7) "a" ⟨"RED"⟩ none none _
    [ArrivalCall.a (Train.mk "T1" ⟨"IN_SERVICE"⟩) 1 "b" 0,
     ArrivalCall.b (Train.mk "T2" ⟨"IN_SERVICE"⟩) 2 "a" 1,
     ArrivalCall.a (Train.mk "T3" ⟨"IN_SERVICE"⟩) 3 "b" 2,
     ArrivalCall.b (Train.mk "T4" ⟨"IN_SERVICE"⟩) 4 "a" 3] rfl

/-- C7: a publish call whose key or value does not conform to the
declared schema fails with SchemaValidationError and hands nothing to
the broker send path (the log is unchanged), while a conforming
key/value pair is appended to the send path for this channel's name
with no error. -/
theorem publish_validates_before_send (topic : String)
    (keySchema valueSchema : AvroSchema) (key value : AvroRecord) (br : BrokerLog) :
    ((conformsTo keySchema key = false ∨ conformsTo valueSchema value = false) →
      ChannelProducer.publish topic keySchema valueSchema key value br
        = (br, some PublishErr.SchemaValidationError))
    ∧ (conformsTo keySchema key = true → conformsTo valueSchema value = true →
      ChannelProducer.publish topic keySchema valueSchema key value br
        = ({ sent := br.sent ++ [(topic, key, value)] }, none)) := by
  constructor
  · intro h
    rcases h with h | h <;> simp [ChannelProducer.publish, h]
  · intro h1 h2
    simp [ChannelProducer.publish, h1, h2]

/-- Witness for C7: a value missing the required station_id field is
rejected without reaching the send path, and a conforming pair is
appended to it. -/
theorem publish_validates_before_send_w :
    ChannelProducer.publish "t" ⟨["timestamp"]⟩ ⟨["station_id"]⟩
        [("timestamp", "1")] [("train_id", "T1")] ⟨[]⟩
      = (⟨[]⟩, some PublishErr.SchemaValidationError)
    ∧ ChannelProducer.publish "t" ⟨["timestamp"]⟩ ⟨["station_id"]⟩
        [("timestamp", "1")] [("station_id", "41380")] ⟨[]⟩
      = (⟨[] ++ [("t", [("timestamp", "1")], [("station_id", "41380")])]⟩, none) :=
  ⟨(publish_validates_before_send "t" ⟨["timestamp"]⟩ ⟨["station_id"]⟩
      [("timestamp", "1")] [("train_id", "T1")] ⟨[]⟩).1 (Or.inr (by decide)),
   (publish_validates_before_send "t" ⟨["timestamp"]⟩ ⟨["station_id"]⟩
      [("timestamp", "1")] [("station_id", "41380")] ⟨[]⟩).2 (by decide) (by decide)⟩

lemma ensureNTimes_of_mem (name : String) :
    ∀ (n : Nat) (reg : List String), name ∈ reg → (ensureNTimes reg name n).2 = 0 := by
  intro n
  induction n with
  | zero => intro reg _; rfl
  | succ k ih =>
    intro reg h
    simp [ensureNTimes, ensureChannelExists, h]
    exact ih reg h

/-- C8: with the spec's atomic check-then-insert registry (concurrent
calls serialize), any positive number of ensure_channel_exists calls
for a name not yet in the process-wide registry sends exactly one
creation request to the broker, across all producer instances sharing
the registry. -/
theorem ensure_channel_exists_single_creation (name : String) (reg : List String)
    (N : Nat) (hreg : name ∉ reg) (hN : 1 ≤ N) :
    (ensureNTimes reg name N).2 = 1 := by
  cases N with
  | zero => cases hN
  | succ k =>
    simp [ensureNTimes, ensureChannelExists, hreg]
    exact ensureNTimes_of_mem name k (name :: reg) (List.mem_cons_self name reg)

/-- Witness for C8: three calls for a fresh channel name send one
creation request. -/
theorem ensure_channel_exists_single_creation_w :
    (ensureNTimes [] "org.chicago.cta.station.a.arrival.v1" 3).2 = 1 :=
  ensure_channel_exists_single_creation "org.chicago.cta.station.a.arrival.v1" [] 3
    (by decide) (by decide)

/-- C9: whenever the constructor accepts the station_id argument
(int(...) succeeds, including on numeric strings), the stored station
id is that integer conversion, and every produce call Station.run
hands to the broker carries exactly that integer as the event's
station_id. -/
theorem station_id_is_int_conversion (station_id : PyIntLike) (v : Int)
    (name : String) (color : Line) (da db : Option Line) (st : Station)
    (produce : ProduceCall → Option PublishErr) (t : Train) (direction : String)
    (psi : Int) (pd : String) (now : Int)
    (hv : pyInt station_id = some v)
    (h : mkStation station_id name color da db = some st) :
    st.station_id = v
    ∧ (Station.run produce st t direction psi pd now).1
        = [{ topic := st.topic_name
             key := { timestamp := now }
             value :=
               { station_id := v
                 train_id := t.train_id
                 direction := direction
                 line := st.color.name
                 train_status := t.status.name
                 prev_station_id := psi
                 prev_direction := pd } }] := by
  have hst : st.station_id = v := by
    unfold mkStation at h
    rw [hv] at h
    injection h with h'
    subst h'
    rfl
  exact ⟨hst, by simp [Station.run, hst]⟩

/-- Witness for C9 at the numeric-string constructor argument "41380". -/
theorem station_id_is_int_conversion_w :
    (Station.mk "a" ("org.chicago.cta.station." ++ normalizeStationName "a" ++ ".arrival.v1")
        1 1 41380 ⟨"RED"⟩ none none none none).station_id = 41380
    ∧ (Station.run (fun _ => none)
        (Station.mk "a" ("org.chicago.cta.station." ++ normalizeStationName "a" ++ ".arrival.v1")
          1 1 41380 ⟨"RED"⟩ none none none none)
        (Train.mk "T1" ⟨"IN_SERVICE"⟩) "a" 40380 "b" 5).1
      = [{ topic := (Station.mk "a"
              ("org.chicago.cta.station." ++ normalizeStationName "a" ++ ".arrival.v1")
              1 1 41380 ⟨"RED"⟩ none none none none).topic_name
           key := { timestamp := 5 }
           value :=
             { station_id := 41380
               train_id := (Train.mk "T1" ⟨"IN_SERVICE"⟩).train_id
               direction := "a"
               line := (Station.mk "a"
                  ("org.chicago.cta.station." ++ normalizeStationName "a" ++ ".arrival.v1")
                  1 1 41380 ⟨"RED"⟩ none none none none).color.name
               train_status := (Train.mk "T1" ⟨"IN_SERVICE"⟩).status.name
               prev_station_id := 40380
               prev_direction := "b" } }] :=
  station_id_is_int_conversion (PyIntLike.str "41380") 41380 "a" ⟨"RED"⟩ none none _
    (fun _ => none) (Train.mk "T1" ⟨"IN_SERVICE"⟩) "a" 40380 "b" 5 (by decide) rfl

/-- C10: when the produce step inside arrive_a (resp. arrive_b) raises,
the occupancy assignment is not rolled back: a_train (resp. b_train)
still holds the train of the failed call, the other direction's slot is
untouched, and no other station field changes. -/
theorem failed_publish_keeps_occupancy (produce : ProduceCall → Option PublishErr)
    (s : Station) (t : Train) (psi : Int) (pd : String) (now : Int) (e : PublishErr) :
    ((Station.arrive_a produce s t psi pd now).2.2 = some e →
      (Station.arrive_a produce s t psi pd now).1.a_train = some t
      ∧ (Station.arrive_a produce s t psi pd now).1
          = { s with a_train := some t })
    ∧ ((Station.arrive_b produce s t psi pd now).2.2 = some e →
      (Station.arrive_b produce s t psi pd now).1.b_train = some t
      ∧ (Station.arrive_b produce s t psi pd now).1
          = { s with b_train := some t }) :=
  ⟨fun _ => ⟨rfl, rfl⟩, fun _ => ⟨rfl, rfl⟩⟩

/-- Witness for C10 with a produce path that always raises
SchemaValidationError. -/
theorem failed_publish_keeps_occupancy_w :
    (Station.arrive_a (fun _ => some PublishErr.SchemaValidationError)
        (Station.mk "x" "topic" 1 1 41380 ⟨"RED"⟩ none none none none)
        (Train.mk "T1" ⟨"IN_SERVICE"⟩) 40380 "b" 5).1.a_train
      = some (Train.mk "T1" ⟨"IN_SERVICE"⟩)
    ∧ (Station.arrive_b (fun _ => some PublishErr.SchemaValidationError)
        (Station.mk "x" "topic" 1 1 41380 ⟨"RED"⟩ none none none none)
        (Train.mk "T1" ⟨"IN_SERVICE"⟩) 40380 "a" 5).1.b_train
      = some (Train.mk "T1" ⟨"IN_SERVICE"⟩) :=
  ⟨((failed_publish_keeps_occupancy (fun _ => some PublishErr.SchemaValidationError)
      (Station.mk "x" "topic" 1 1 41380 ⟨"RED"⟩ none none none none)
      (Train.mk "T1" ⟨"IN_SERVICE"⟩) 40380 "b" 5 PublishErr.SchemaValidationError).1 rfl).1,
   ((failed_publish_keeps_occupancy (fun _ => some PublishErr.SchemaValidationError)
      (Station.mk "x" "topic" 1 1 41380 ⟨"RED"⟩ none none none none)
      (Train.mk "T1" ⟨"IN_SERVICE"⟩) 40380 "a" 5 PublishErr.SchemaValidationError).2 rfl).1⟩
